import Mathlib

/-!
# Trusted Roll Modifier: a shallow embedding of `scripts/main.js`

The module stores a roll-bias mode in the host's client settings, rewrites the
options of whole-roll evaluation in modes `min`/`max`, and rolls every die twice
in modes `low`/`high`.  The definitions below follow `scripts/main.js` function
by function; host services that the file only calls (the settings registry, the
role constant, the roll primitives) are parameters or small models of the
interface the specification describes.
-/

namespace TrustedRollModifier

/-! ## Values -/

/-- JavaScript values that reach the module: `undefined`, `null`, booleans,
numbers, strings and plain records.  The numbers are the integers a die
primitive produces, and `NaN`; fractions and the infinities, which `Math.min`
and `Math.max` order as they order the integers, are outside the model. -/
inductive JSValue where
  | undefined
  | null
  | bool (b : Bool)
  | num (n : Int)
  | nan
  | str (s : String)
  | obj (fields : List (String × JSValue))

/-- A value whose `typeof` is `"number"`: an integer or `NaN`. -/
inductive JSNumber where
  | int (n : Int)
  | nan

/-- A number as a value. -/
def JSNumber.toValue : JSNumber → JSValue
  | .int n => .num n
  | .nan => .nan

/-- The function `Math.max` on two numbers: `NaN` as soon as one of them is. -/
def mathMax : JSNumber → JSNumber → JSNumber
  | .int a, .int b => .int (max a b)
  | _, _ => .nan

/-- The function `Math.min` on two numbers: `NaN` as soon as one of them is. -/
def mathMin : JSNumber → JSNumber → JSNumber
  | .int a, .int b => .int (min a b)
  | _, _ => .nan

/-- A plain record: own enumerable properties in insertion order. -/
abbrev Obj := List (String × JSValue)

/-- Own-property lookup. -/
def objLookup : Obj → String → Option JSValue
  | [], _ => none
  | (k', v) :: rest, k => if k' = k then some v else objLookup rest k

/-- Property read `o[k]`: `undefined` when the record has no such property. -/
def objGet (o : Obj) (k : String) : JSValue :=
  match objLookup o k with
  | some v => v
  | none => .undefined

/-- Property write in an object literal: an existing key keeps its position and
takes the new value, a new key is appended. -/
def objSet : Obj → String → JSValue → Obj
  | [], k, v => [(k, v)]
  | (k', v') :: rest, k, v =>
    if k' = k then (k, v) :: rest else (k', v') :: objSet rest k v

/-- The properties copied by the spread `{ ...v }`: the fields of a record, the
indexed characters of a string (one per code point, which is one per UTF-16
code unit for the strings of the Basic Multilingual Plane), nothing for the
other values. -/
def ownFields : JSValue → Obj
  | .obj fields => fields
  | .str s => s.toList.enum.map (fun p => (toString p.1, JSValue.str (String.singleton p.2)))
  | _ => []

/-- Optional member read `v?.k`: `undefined` on `undefined`/`null`, and on the
values that carry no such property. -/
def optGet (v : JSValue) (k : String) : JSValue :=
  match v with
  | .obj fields => objGet fields k
  | _ => .undefined

/-- JavaScript truthiness (`ToBoolean`). -/
def truthy : JSValue → Bool
  | .undefined => false
  | .null => false
  | .bool b => b
  | .num n => n != 0
  | .nan => false
  | .str s => s != ""
  | .obj _ => true

/-- The comparison `v === "lit"` against a string literal. -/
def strictEqStr (v : JSValue) (lit : String) : Bool :=
  match v with
  | .str s => s == lit
  | _ => false

/-- The comparison `v === n` against a number. -/
def strictEqNum (v : JSValue) (n : Int) : Bool :=
  match v with
  | .num m => m == n
  | _ => false

/-- Nullish coalescing `v ?? d`. -/
def nullish (v d : JSValue) : JSValue :=
  match v with
  | .undefined => d
  | .null => d
  | _ => v

/-- A default parameter `(x = d)`: the default replaces `undefined` only. -/
def defaultArg (v d : JSValue) : JSValue :=
  match v with
  | .undefined => d
  | _ => v

/-- The test `typeof v === "number"`, giving the number when it holds; `NaN`
passes it. -/
def asNumber : JSValue → Option JSNumber
  | .num n => some (.int n)
  | .nan => some .nan
  | _ => none

/-- The method `Array.prototype.includes` on an array of strings. -/
def includes (xs : List String) (v : JSValue) : Bool :=
  match v with
  | .str s => xs.contains s
  | _ => false

/-! ## Host state -/

/-- Modelled from the spec: the host's settings registry (section 6),
`register(namespace, key, {default})`, `get(namespace, key)` and
`set(namespace, key, value)`; `defaults` holds the registered defaults and
`storage` the persisted values, both keyed by `namespace.key`. -/
structure ClientSettings where
  defaults : Obj
  storage : Obj

/-- The key under which a setting of a namespace is kept. -/
def settingsKey (ns key : String) : String := ns ++ "." ++ key

/-- Modelled from the spec: `game.settings.register`, recording the default. -/
def settingsRegister (s : ClientSettings) (ns key : String) (dflt : JSValue) : ClientSettings :=
  { s with defaults := objSet s.defaults (settingsKey ns key) dflt }

/-- Modelled from the spec: `game.settings.get`, the persisted value, else the
registered default, else `undefined`. -/
def settingsGet (s : ClientSettings) (ns key : String) : JSValue :=
  match objLookup s.storage (settingsKey ns key) with
  | some v => v
  | none => objGet s.defaults (settingsKey ns key)

/-- Modelled from the spec: `game.settings.set`, persisting the value. -/
def settingsSet (s : ClientSettings) (ns key : String) (v : JSValue) : ClientSettings :=
  { s with storage := objSet s.storage (settingsKey ns key) v }

/-- The part of the host a roll primitive can read and change: the current user
(`game.user`, absent when nobody is logged in), the client settings, and the
host's private state `σ` (random source, spies of a test double). -/
structure Game (σ : Type) where
  user : Option Obj
  settings : ClientSettings
  host : σ

/-- An effectful computation over the host: a result or a thrown error,
together with the host state it leaves. -/
abbrev Eff (σ ε α : Type) := Game σ → Except ε α × Game σ

/-- A prototype method: receiver `this`, the `options` argument, then its effect. -/
abbrev Method (σ ε : Type) := JSValue → JSValue → Eff σ ε JSValue

/-! ## `scripts/main.js` -/

/-- The settings namespace of the module. -/
def MODULE_ID : String := "trusted-roll-modifier"

/-- The settings key of the mode. -/
def SETTING_MODE : String := "mode"

/-- The closed list of modes. -/
def MODES : List String := ["min", "low", "normal", "high", "max"]

/-- The function `isTrustedOnly`: `game.user?.role === CONST.USER_ROLES.TRUSTED`, the host
constant being the parameter `TRUSTED`. -/
def isTrustedOnly {σ : Type} (TRUSTED : Int) (g : Game σ) : Bool :=
  let role :=
    match g.user with
    | some u => objGet u "role"
    | none => JSValue.undefined
  strictEqNum role TRUSTED

/-- The function `getMode`: `game.settings.get(MODULE_ID, SETTING_MODE) ?? "normal"`. -/
def getMode {σ : Type} (g : Game σ) : JSValue :=
  nullish (settingsGet g.settings MODULE_ID SETTING_MODE) (.str "normal")

/-- The function `setMode`: coerce a candidate outside `MODES` to `"normal"`, then
`game.settings.set`; the value handed to the registry is returned. -/
def setMode {σ : Type} (mode : JSValue) (g : Game σ) : JSValue × Game σ :=
  let mode := if !includes MODES mode then JSValue.str "normal" else mode
  (mode, { g with settings := settingsSet g.settings MODULE_ID SETTING_MODE mode })

/-- The function `applyMinMaxToEvalOptions`: the options transform of modes `min`
and `max`, the identity in every other mode. -/
def applyMinMaxToEvalOptions {σ : Type} (g : Game σ) (options : JSValue) : JSValue :=
  let options := defaultArg options (.obj [])
  let mode := getMode g
  if strictEqStr mode "min" then
    .obj (objSet (objSet (ownFields options) "minimize" (.bool true)) "maximize" (.bool false))
  else if strictEqStr mode "max" then
    .obj (objSet (objSet (ownFields options) "maximize" (.bool true)) "minimize" (.bool false))
  else options

/-- The replacement installed on `Roll.prototype.evaluate` and on
`Roll.prototype.evaluateSync`, closed over the original method. -/
def evaluateWrapper {σ ε : Type} (originalEvaluate : Method σ ε) : Method σ ε :=
  fun this options g =>
    let options := defaultArg options (.obj [])
    let options := applyMinMaxToEvalOptions g options
    originalEvaluate this options g

/-- The replacement installed on `DiceTerm.prototype.roll`, closed over the
original method.  Each `await` hands on the host state its call left. -/
def rollWrapper {σ ε : Type} (originalDiceTermRoll : Method σ ε) : Method σ ε :=
  fun this options g =>
    let options := defaultArg options (.obj [])
    let mode := getMode g
    if strictEqStr mode "min" || strictEqStr mode "max" then
      originalDiceTermRoll this options g
    else if !strictEqStr mode "low" && !strictEqStr mode "high" then
      originalDiceTermRoll this options g
    else if truthy (optGet options "minimize") || truthy (optGet options "maximize") then
      originalDiceTermRoll this options g
    else
      match originalDiceTermRoll this options g with
      | (.error e, g1) => (.error e, g1)
      | (.ok r1, g1) =>
        match originalDiceTermRoll this options g1 with
        | (.error e, g2) => (.error e, g2)
        | (.ok r2, g2) =>
          match asNumber r1 with
          | none => (.ok r2, g2)
          | some n1 =>
            match asNumber r2 with
            | none => (.ok r1, g2)
            | some n2 =>
              (.ok (if strictEqStr mode "high" then mathMax n1 n2 else mathMin n1 n2).toValue,
                g2)

/-- The three entry points the module patches: `Roll.prototype.evaluate`,
`Roll.prototype.evaluateSync` and `DiceTerm.prototype.roll`, each absent when
the host does not expose it. -/
structure Prototypes (σ ε : Type) where
  evaluate : Option (Method σ ε)
  evaluateSync : Option (Method σ ε)
  roll : Option (Method σ ε)

/-- Everything `installPatchesOnce` touches: the guard flag on `globalThis`,
the prototypes, and the game. -/
structure World (σ ε : Type) where
  patched : Bool
  protos : Prototypes σ ε
  game : Game σ

/-- The function `installPatchesOnce` on a host where the identifier `foundry`
is declared: nothing for an actor who is not trusted, nothing when the guard
flag is set, else set the flag and wrap every entry point that is present.
`installPatchesOnceIn` below is the same function on any host. -/
def installPatchesOnce {σ ε : Type} (TRUSTED : Int) (w : World σ ε) : World σ ε :=
  if !isTrustedOnly TRUSTED w.game then w
  else if w.patched then w
  else
    { w with
      patched := true
      protos :=
        { evaluate := w.protos.evaluate.map evaluateWrapper
          evaluateSync := w.protos.evaluateSync.map evaluateWrapper
          roll := w.protos.roll.map rollWrapper } }

/-- An error the module's own code can raise: the read of an identifier that is
not declared. -/
inductive JSError where
  | referenceError (identifier : String)

/-- The global scope as `installPatchesOnce` finds it: the guard flag on
`globalThis`, the identifier `foundry` (`none` when the host does not declare
it, else the three entry points reachable through it, each absent or present),
and the game. -/
structure Realm (σ ε : Type) where
  patched : Bool
  foundry : Option (Prototypes σ ε)
  game : Game σ

/-- The function `installPatchesOnce` on any host, with the way it ends.  The
guard flag is written before `foundry?.dice?.Roll` is read, and `?.` guards the
value of `foundry`, not its declaration: the read of an undeclared `foundry`
throws a `ReferenceError`. -/
def installPatchesOnceIn {σ ε : Type} (TRUSTED : Int) (r : Realm σ ε) :
    Except JSError Unit × Realm σ ε :=
  if !isTrustedOnly TRUSTED r.game then (.ok (), r)
  else if r.patched then (.ok (), r)
  else
    match r.foundry with
    | none => (.error (.referenceError "foundry"), { r with patched := true })
    | some protos =>
      (.ok (),
        { r with
          patched := true
          foundry := some
            { evaluate := protos.evaluate.map evaluateWrapper
              evaluateSync := protos.evaluateSync.map evaluateWrapper
              roll := protos.roll.map rollWrapper } })

/-- The `init` hook: `game.settings.register` of the mode setting with default
`"normal"`. -/
def onInit {σ : Type} (g : Game σ) : Game σ :=
  { g with settings := settingsRegister g.settings MODULE_ID SETTING_MODE (.str "normal") }

/-- The `ready` hook: nothing for an actor who is not trusted, else
`installPatchesOnce`.  The panel it then builds lives in the document, which is
no part of `World`. -/
def onReady {σ ε : Type} (TRUSTED : Int) (w : World σ ε) : World σ ε :=
  if !isTrustedOnly TRUSTED w.game then w
  else installPatchesOnce TRUSTED w

/-! ## Return shapes -/

/-- How a call comes back to its caller: a plain value returned at once, an
error thrown at once, or a promise that settles later with a value or an
error. -/
inductive Completion (ε : Type) where
  | returned (v : JSValue)
  | threw (e : ε)
  | promised (r : Except ε JSValue)

/-- What `await` makes of a completion: the plain value itself, the thrown
error, or what the promise settles with. -/
def Completion.settle {ε : Type} : Completion ε → Except ε JSValue
  | .returned v => .ok v
  | .threw e => .error e
  | .promised r => r

/-- A prototype method together with the shape in which it answers. -/
abbrev ShapedMethod (σ ε : Type) := JSValue → JSValue → Game σ → Completion ε × Game σ

/-- A shaped method as seen through `await`. -/
def awaited {σ ε : Type} (f : ShapedMethod σ ε) : Method σ ε :=
  fun this options g => ((f this options g).1.settle, (f this options g).2)

/-- The replacement installed on `DiceTerm.prototype.roll` with its shape: it
is declared `async function`, so whatever its body (`rollWrapper` over the
awaited original) returns or throws reaches the caller inside a promise. -/
def rollWrapperAsync {σ ε : Type} (originalDiceTermRoll : ShapedMethod σ ε) :
    ShapedMethod σ ε :=
  fun this options g =>
    let r := rollWrapper (awaited originalDiceTermRoll) this options g
    (.promised r.1, r.2)

/-- The replacement installed on `Roll.prototype.evaluate` and on
`Roll.prototype.evaluateSync` with its shape: a plain `function` that returns
what the original returns. -/
def evaluateWrapperShaped {σ ε : Type} (originalEvaluate : ShapedMethod σ ε) :
    ShapedMethod σ ε :=
  fun this options g =>
    let options := defaultArg options (.obj [])
    let options := applyMinMaxToEvalOptions g options
    originalEvaluate this options g

/-! ## Test doubles -/

/-- One recorded invocation of a primitive. -/
structure Call where
  this : JSValue
  options : JSValue

/-- Replace the host's private state. -/
def Game.withHost {σ τ : Type} (g : Game σ) (h : τ) : Game τ :=
  { user := g.user, settings := g.settings, host := h }

/-- A spy around a primitive: it behaves as `f` and appends every invocation to
a log that `f` cannot see. -/
def spy {σ ε : Type} (f : Method σ ε) : Method (σ × List Call) ε :=
  fun this options g =>
    let r := f this options (g.withHost g.host.1)
    (r.1, r.2.withHost (r.2.host, g.host.2 ++ [{ this := this, options := options }]))

/-- A stub primitive that returns the scripted outcomes in order, `undefined`
once the script is exhausted. -/
def scripted {ε : Type} : Method (List JSValue) ε :=
  fun _ _ g =>
    match g.host with
    | [] => (.ok .undefined, g)
    | r :: rest => (.ok r, g.withHost rest)

/-- The call a wrapper hands to the original for the caller's `this` and
`options`. -/
def callOf (this options : JSValue) : Call :=
  { this := this, options := defaultArg options (.obj []) }

/-- A host for tests: a user of role 2, nothing registered or stored, no patch
installed, and a spied scripted stub behind each of the three entry points. -/
def stubWorld : World (List JSValue × List Call) Unit :=
  { patched := false
    protos :=
      { evaluate := some (spy scripted)
        evaluateSync := some (spy scripted)
        roll := some (spy scripted) }
    game :=
      { user := some [("role", .num 2)]
        settings := { defaults := [], storage := [] }
        host := ([], []) } }

/-- A run of `setMode` calls, one per candidate, in order. -/
def setModes {σ : Type} (candidates : List JSValue) (g : Game σ) : Game σ :=
  candidates.foldl (fun acc c => (setMode c acc).2) g

/-- The stub host of an older version: it exposes the per-die roll and neither
`evaluate` nor `evaluateSync`. -/
def rollOnlyWorld : World (List JSValue × List Call) Unit :=
  { stubWorld with
    protos := { evaluate := none, evaluateSync := none, roll := some (spy scripted) } }

/-- A host that declares no `foundry`, so exposes none of the three entry
points, seen by a user of role 2 with no patch installed. -/
def bareRealm : Realm Unit Unit :=
  { patched := false
    foundry := none
    game :=
      { user := some [("role", .num 2)]
        settings := { defaults := [], storage := [] }
        host := () } }

/-- A stub primitive whose scripted outcomes may be thrown errors. -/
def scriptedOutcomes {ε : Type} : Method (List (Except ε JSValue)) ε :=
  fun _ _ g =>
    match g.host with
    | [] => (.ok .undefined, g)
    | r :: rest => (r, g.withHost rest)

/-- A primitive that behaves as `f` and, before it answers, calls `setMode`
with the candidate `c`. -/
def thenSetMode {σ ε : Type} (f : Method σ ε) (c : JSValue) : Method σ ε :=
  fun this options g =>
    let r := f this options g
    (r.1, (setMode c r.2).2)

/-- A synchronous stub: it returns its scripted outcomes as plain values. -/
def scriptedPlain {ε : Type} : ShapedMethod (List JSValue) ε :=
  fun _ _ g =>
    match g.host with
    | [] => (.returned .undefined, g)
    | r :: rest => (.returned r, g.withHost rest)

/-- A game whose stored mode is `mode`, with nobody logged in. -/
def gameInMode {σ : Type} (mode : String) (h : σ) : Game σ :=
  { user := none
    settings := { defaults := [], storage := [(settingsKey MODULE_ID SETTING_MODE, .str mode)] }
    host := h }

/-! ## Records -/

theorem objLookup_objSet_self (o : Obj) (k : String) (v : JSValue) :
    objLookup (objSet o k v) k = some v := by
  induction o with
  | nil => simp [objSet, objLookup]
  | cons p rest ih =>
    obtain ⟨k', v'⟩ := p
    by_cases h : k' = k
    · simp [objSet, objLookup, h]
    · simp [objSet, objLookup, h, ih]

theorem objLookup_objSet_ne (o : Obj) (k j : String) (v : JSValue) (hne : j ≠ k) :
    objLookup (objSet o k v) j = objLookup o j := by
  induction o with
  | nil => simp [objSet, objLookup, Ne.symm hne]
  | cons p rest ih =>
    obtain ⟨k', v'⟩ := p
    by_cases h : k' = k
    · subst h
      simp [objSet, objLookup, Ne.symm hne]
    · by_cases hj : k' = j
      · subst hj
        simp [objSet, objLookup, h]
      · simp [objSet, objLookup, h, hj, ih]

theorem getMode_gameInMode {σ : Type} (mode : String) (h : σ) :
    getMode (gameInMode mode h) = .str mode := by
  simp [getMode, gameInMode, settingsGet, objLookup, nullish]

/-! ## Whole-roll evaluation options -/

/-- C2: in mode `min`, for every options record the transform returns a record
whose `minimize` is `true` and whose `maximize` is `false`, and every other key
reads exactly as it does in the input. -/
theorem applyMinMaxToEvalOptions_min {σ : Type} (g : Game σ) (fields : Obj)
    (hmode : getMode g = .str "min") :
    ∃ out : Obj, applyMinMaxToEvalOptions g (.obj fields) = .obj out ∧
      objLookup out "minimize" = some (.bool true) ∧
      objLookup out "maximize" = some (.bool false) ∧
      ∀ k : String, k ≠ "minimize" → k ≠ "maximize" → objLookup out k = objLookup fields k := by
  refine ⟨objSet (objSet fields "minimize" (.bool true)) "maximize" (.bool false), ?_, ?_, ?_, ?_⟩
  · simp [applyMinMaxToEvalOptions, hmode, strictEqStr, defaultArg, ownFields]
  · rw [objLookup_objSet_ne _ _ _ _ (by decide), objLookup_objSet_self]
  · rw [objLookup_objSet_self]
  · intro k h1 h2
    rw [objLookup_objSet_ne _ _ _ _ h2, objLookup_objSet_ne _ _ _ _ h1]

/-- C2 at a record that asks for the opposite: `{maximize: true, minimize:
false, async: true}` in mode `min`. -/
theorem applyMinMaxToEvalOptions_min_witness :
    getMode (gameInMode "min" ()) = .str "min" ∧
    ∃ out : Obj,
      applyMinMaxToEvalOptions (gameInMode "min" ())
        (.obj [("maximize", .bool true), ("minimize", .bool false), ("async", .bool true)])
        = .obj out ∧
      objLookup out "minimize" = some (.bool true) ∧
      objLookup out "maximize" = some (.bool false) ∧
      ∀ k : String, k ≠ "minimize" → k ≠ "maximize" →
        objLookup out k
          = objLookup [("maximize", .bool true), ("minimize", .bool false), ("async", .bool true)] k :=
  ⟨rfl, applyMinMaxToEvalOptions_min (gameInMode "min" ())
    [("maximize", .bool true), ("minimize", .bool false), ("async", .bool true)] rfl⟩

/-- C3: in mode `max`, for every options record the transform returns a record
whose `maximize` is `true` and whose `minimize` is `false`, and every other key
reads exactly as it does in the input. -/
theorem applyMinMaxToEvalOptions_max {σ : Type} (g : Game σ) (fields : Obj)
    (hmode : getMode g = .str "max") :
    ∃ out : Obj, applyMinMaxToEvalOptions g (.obj fields) = .obj out ∧
      objLookup out "maximize" = some (.bool true) ∧
      objLookup out "minimize" = some (.bool false) ∧
      ∀ k : String, k ≠ "minimize" → k ≠ "maximize" → objLookup out k = objLookup fields k := by
  refine ⟨objSet (objSet fields "maximize" (.bool true)) "minimize" (.bool false), ?_, ?_, ?_, ?_⟩
  · simp [applyMinMaxToEvalOptions, hmode, strictEqStr, defaultArg, ownFields]
  · rw [objLookup_objSet_ne _ _ _ _ (by decide), objLookup_objSet_self]
  · rw [objLookup_objSet_self]
  · intro k h1 h2
    rw [objLookup_objSet_ne _ _ _ _ h1, objLookup_objSet_ne _ _ _ _ h2]

/-- C3 at a record that asks for the opposite: `{minimize: true, maximize:
false, async: true}` in mode `max`. -/
theorem applyMinMaxToEvalOptions_max_witness :
    getMode (gameInMode "max" ()) = .str "max" ∧
    ∃ out : Obj,
      applyMinMaxToEvalOptions (gameInMode "max" ())
        (.obj [("minimize", .bool true), ("maximize", .bool false), ("async", .bool true)])
        = .obj out ∧
      objLookup out "maximize" = some (.bool true) ∧
      objLookup out "minimize" = some (.bool false) ∧
      ∀ k : String, k ≠ "minimize" → k ≠ "maximize" →
        objLookup out k
          = objLookup [("minimize", .bool true), ("maximize", .bool false), ("async", .bool true)] k :=
  ⟨rfl, applyMinMaxToEvalOptions_max (gameInMode "max" ())
    [("minimize", .bool true), ("maximize", .bool false), ("async", .bool true)] rfl⟩

/-- C4: in modes `normal`, `low` and `high` the transform returns every options
record as it received it, the caller's `minimize` and `maximize` included. -/
theorem applyMinMaxToEvalOptions_identity {σ : Type} (g : Game σ) (fields : Obj)
    (hmode : getMode g = .str "normal" ∨ getMode g = .str "low" ∨ getMode g = .str "high") :
    applyMinMaxToEvalOptions g (.obj fields) = .obj fields := by
  rcases hmode with h | h | h <;>
    simp [applyMinMaxToEvalOptions, h, strictEqStr, defaultArg]

/-- C4 at `{minimize: true, maximize: true}` in mode `low`. -/
theorem applyMinMaxToEvalOptions_identity_witness :
    (getMode (gameInMode "low" ()) = .str "normal" ∨
      getMode (gameInMode "low" ()) = .str "low" ∨
      getMode (gameInMode "low" ()) = .str "high") ∧
    applyMinMaxToEvalOptions (gameInMode "low" ())
        (.obj [("minimize", .bool true), ("maximize", .bool true)])
      = .obj [("minimize", .bool true), ("maximize", .bool true)] :=
  ⟨Or.inr (Or.inl rfl), applyMinMaxToEvalOptions_identity (gameInMode "low" ())
    [("minimize", .bool true), ("maximize", .bool true)] (Or.inr (Or.inl rfl))⟩

/-! ## The per-die roll -/

theorem getMode_withHost {σ τ : Type} (g : Game σ) (h : τ) :
    getMode (g.withHost h) = getMode g := rfl

theorem truthy_optGet_defaultArg (options : JSValue) (k : String) :
    truthy (optGet (defaultArg options (.obj [])) k) = truthy (optGet options k) := by
  cases options <;> rfl

theorem defaultArg_of_truthy_optGet (options : JSValue) (k : String)
    (h : truthy (optGet options k) = true) : defaultArg options (.obj []) = options := by
  cases options <;> first | rfl | simp [optGet, truthy] at h

/-- The clean dual roll, both calls returning: the selection step on the two
outcomes, with the state the second call left. -/
theorem rollWrapper_dual {σ ε : Type} (f : Method σ ε) (this options : JSValue)
    (g g1 g2 : Game σ) (r1 r2 : JSValue)
    (hmode : getMode g = .str "low" ∨ getMode g = .str "high")
    (hmin : truthy (optGet options "minimize") = false)
    (hmax : truthy (optGet options "maximize") = false)
    (h1 : f this (defaultArg options (.obj [])) g = (.ok r1, g1))
    (h2 : f this (defaultArg options (.obj [])) g1 = (.ok r2, g2)) :
    rollWrapper f this options g =
      match asNumber r1 with
      | none => (.ok r2, g2)
      | some n1 =>
        match asNumber r2 with
        | none => (.ok r1, g2)
        | some n2 =>
          (.ok (if strictEqStr (getMode g) "high" then mathMax n1 n2
            else mathMin n1 n2).toValue, g2) := by
  rcases hmode with h | h <;>
    simp [rollWrapper, h, strictEqStr, truthy_optGet_defaultArg, hmin, hmax, h1, h2]

/-- C1: in the clean dual roll, when the primitive returns the numbers `a` and
then `b`, the wrapped roll returns `min a b` in mode `low` and `max a b` in mode
`high`, and `a` itself when the two are equal. -/
theorem rollWrapper_numbers {σ ε : Type} (f : Method σ ε) (this options : JSValue)
    (g g1 g2 : Game σ) (a b : Int)
    (hmin : truthy (optGet options "minimize") = false)
    (hmax : truthy (optGet options "maximize") = false)
    (h1 : f this (defaultArg options (.obj [])) g = (.ok (.num a), g1))
    (h2 : f this (defaultArg options (.obj [])) g1 = (.ok (.num b), g2)) :
    (getMode g = .str "low" → rollWrapper f this options g = (.ok (.num (min a b)), g2)) ∧
    (getMode g = .str "high" → rollWrapper f this options g = (.ok (.num (max a b)), g2)) ∧
    (a = b → (getMode g = .str "low" ∨ getMode g = .str "high") →
      rollWrapper f this options g = (.ok (.num a), g2)) := by
  refine ⟨fun h => ?_, fun h => ?_, fun hab h => ?_⟩
  · rw [rollWrapper_dual f this options g g1 g2 _ _ (Or.inl h) hmin hmax h1 h2]
    simp [asNumber, mathMin, mathMax, JSNumber.toValue, h, strictEqStr]
  · rw [rollWrapper_dual f this options g g1 g2 _ _ (Or.inr h) hmin hmax h1 h2]
    simp [asNumber, mathMin, mathMax, JSNumber.toValue, h, strictEqStr]
  · rw [rollWrapper_dual f this options g g1 g2 _ _ h hmin hmax h1 h2]
    subst hab
    rcases h with h | h <;> simp [asNumber, mathMin, mathMax, JSNumber.toValue, h, strictEqStr]

/-- C1 at the stub that returns 5 and then 2: the wrapped roll gives 2 in mode
`low` and 5 in mode `high`. -/
theorem rollWrapper_numbers_witness :
    rollWrapper (ε := Unit) scripted .undefined (.obj []) (gameInMode "low" [.num 5, .num 2])
      = (.ok (.num 2), gameInMode "low" []) ∧
    rollWrapper (ε := Unit) scripted .undefined (.obj []) (gameInMode "high" [.num 5, .num 2])
      = (.ok (.num 5), gameInMode "high" []) :=
  ⟨(rollWrapper_numbers scripted .undefined (.obj []) (gameInMode "low" [.num 5, .num 2])
      (gameInMode "low" [.num 2]) (gameInMode "low" []) 5 2 rfl rfl rfl rfl).1 rfl,
   (rollWrapper_numbers scripted .undefined (.obj []) (gameInMode "high" [.num 5, .num 2])
      (gameInMode "high" [.num 2]) (gameInMode "high" []) 5 2 rfl rfl rfl rfl).2.1 rfl⟩

theorem spy_result {σ ε : Type} (f : Method σ ε) (this options : JSValue) (g : Game σ)
    (log : List Call) :
    spy f this options (g.withHost (g.host, log)) =
      ((f this options g).1,
        (f this options g).2.withHost
          ((f this options g).2.host, log ++ [{ this := this, options := options }])) := rfl

/-- C7: in mode `low` or `high`, when the caller's options already ask for
`minimize` or `maximize`, the wrapped roll is one call of the primitive with the
caller's options, result and state unchanged; a spy on the primitive records
exactly that one call. -/
theorem rollWrapper_upstream_request {σ ε : Type} (f : Method σ ε) (this options : JSValue)
    (g : Game σ) (log : List Call)
    (hmode : getMode g = .str "low" ∨ getMode g = .str "high")
    (hreq : truthy (optGet options "minimize") = true ∨
      truthy (optGet options "maximize") = true) :
    rollWrapper f this options g = f this options g ∧
    (rollWrapper (spy f) this options (g.withHost (g.host, log))).1 = (f this options g).1 ∧
    (rollWrapper (spy f) this options (g.withHost (g.host, log))).2.host.2
      = log ++ [{ this := this, options := options }] := by
  have hdef : defaultArg options (.obj []) = options := by
    rcases hreq with h | h <;> exact defaultArg_of_truthy_optGet options _ h
  have key : ∀ {τ : Type} (f' : Method τ ε) (g' : Game τ), getMode g' = getMode g →
      rollWrapper f' this options g' = f' this options g' := by
    intro τ f' g' hg
    rcases hmode with h | h <;> rcases hreq with h' | h' <;>
      simp [rollWrapper, hg, h, strictEqStr, hdef, h']
  refine ⟨key f g rfl, ?_, ?_⟩
  · rw [key (spy f) _ (getMode_withHost g _), spy_result]
  · rw [key (spy f) _ (getMode_withHost g _), spy_result]
    rfl

/-- C7 at `{minimize: true}` in mode `high`: the stub is called once and its
first outcome is returned. -/
theorem rollWrapper_upstream_request_witness :
    (getMode (gameInMode "high" [JSValue.num 5, JSValue.num 2]) = .str "low" ∨
      getMode (gameInMode "high" [JSValue.num 5, JSValue.num 2]) = .str "high") ∧
    (rollWrapper (spy (scripted (ε := Unit))) .null (.obj [("minimize", .bool true)])
        ((gameInMode "high" [JSValue.num 5, JSValue.num 2]).withHost
          ([JSValue.num 5, JSValue.num 2], []))).2.host.2
      = [] ++ [{ this := .null, options := .obj [("minimize", .bool true)] }] :=
  ⟨Or.inr rfl,
    (rollWrapper_upstream_request (scripted (ε := Unit)) .null (.obj [("minimize", .bool true)])
      (gameInMode "high" [JSValue.num 5, JSValue.num 2]) []
      (Or.inr rfl) (Or.inl rfl)).2.2⟩

/-- C8 as amended: in the clean dual roll, when the first outcome is not of type
number (`typeof` is not `"number"`; `NaN` is of type number) the wrapped roll
returns the second outcome as it is, in mode `low` and in mode `high`,
whatever the second outcome is. -/
theorem rollWrapper_first_not_number {σ ε : Type} (f : Method σ ε) (this options : JSValue)
    (g g1 g2 : Game σ) (r1 r2 : JSValue)
    (hmode : getMode g = .str "low" ∨ getMode g = .str "high")
    (hmin : truthy (optGet options "minimize") = false)
    (hmax : truthy (optGet options "maximize") = false)
    (h1 : f this (defaultArg options (.obj [])) g = (.ok r1, g1))
    (h2 : f this (defaultArg options (.obj [])) g1 = (.ok r2, g2))
    (hr1 : asNumber r1 = none) :
    rollWrapper f this options g = (.ok r2, g2) := by
  rw [rollWrapper_dual f this options g g1 g2 r1 r2 hmode hmin hmax h1 h2, hr1]

/-- C8 as stated fails: `NaN` is not a valid number, yet over the stub that
returns `NaN` and then 4 the wrapped roll gives `NaN`, not 4, in mode `low` and
in mode `high`. -/
theorem rollWrapper_nan_then_number :
    rollWrapper (ε := Unit) scripted .undefined (.obj []) (gameInMode "low" [.nan, .num 4])
      = (.ok .nan, gameInMode "low" []) ∧
    rollWrapper (ε := Unit) scripted .undefined (.obj []) (gameInMode "high" [.nan, .num 4])
      = (.ok .nan, gameInMode "high" []) ∧
    (rollWrapper (ε := Unit) scripted .undefined (.obj [])
      (gameInMode "low" [.nan, .num 4])).1 ≠ .ok (.num 4) ∧
    (rollWrapper (ε := Unit) scripted .undefined (.obj [])
      (gameInMode "high" [.nan, .num 4])).1 ≠ .ok (.num 4) := by
  refine ⟨rfl, rfl, fun h => ?_, fun h => ?_⟩
  · have e : (rollWrapper (ε := Unit) scripted .undefined (.obj [])
        (gameInMode "low" [.nan, .num 4])).1 = .ok .nan := rfl
    rw [e] at h
    cases h
  · have e : (rollWrapper (ε := Unit) scripted .undefined (.obj [])
        (gameInMode "high" [.nan, .num 4])).1 = .ok .nan := rfl
    rw [e] at h
    cases h

/-- C8 at the stub that returns `undefined` and then 4: the wrapped roll gives
4 in mode `low` and in mode `high`. -/
theorem rollWrapper_first_not_number_witness :
    rollWrapper (ε := Unit) scripted .undefined (.obj [])
        (gameInMode "low" [.undefined, .num 4])
      = (.ok (.num 4), gameInMode "low" []) ∧
    rollWrapper (ε := Unit) scripted .undefined (.obj [])
        (gameInMode "high" [.undefined, .num 4])
      = (.ok (.num 4), gameInMode "high" []) :=
  ⟨rollWrapper_first_not_number scripted .undefined (.obj [])
      (gameInMode "low" [.undefined, .num 4]) (gameInMode "low" [.num 4]) (gameInMode "low" [])
      .undefined (.num 4) (Or.inl rfl) rfl rfl rfl rfl rfl,
   rollWrapper_first_not_number scripted .undefined (.obj [])
      (gameInMode "high" [.undefined, .num 4]) (gameInMode "high" [.num 4]) (gameInMode "high" [])
      .undefined (.num 4) (Or.inr rfl) rfl rfl rfl rfl rfl⟩

/-! ## Mode store and access gate -/

theorem includes_MODES_iff (v : JSValue) :
    includes MODES v = true ↔ ∃ s ∈ MODES, v = .str s := by
  cases v <;> simp [includes]

/-- C5: for every candidate, `setMode` writes the candidate itself to the store
when it is one of the five modes and `"normal"` otherwise (any other string,
`undefined`, `null`, a number); it is total, and `getMode` afterwards returns
the value that was written. -/
theorem setMode_coerces {σ : Type} (candidate : JSValue) (g : Game σ) :
    ∃ written : JSValue,
      objLookup (setMode candidate g).2.settings.storage (settingsKey MODULE_ID SETTING_MODE)
        = some written ∧
      getMode (setMode candidate g).2 = written ∧
      ((∃ s ∈ MODES, candidate = .str s) → written = candidate) ∧
      ((¬ ∃ s ∈ MODES, candidate = .str s) → written = .str "normal") := by
  by_cases h : includes MODES candidate = true
  · refine ⟨candidate, ?_, ?_, fun _ => rfl, fun hn => ?_⟩
    · simp [setMode, h, settingsSet, objLookup_objSet_self]
    · obtain ⟨s, -, rfl⟩ := (includes_MODES_iff candidate).1 h
      simp [setMode, h, getMode, settingsGet, settingsSet, objLookup_objSet_self, nullish]
    · exact absurd ((includes_MODES_iff candidate).1 h) hn
  · refine ⟨.str "normal", ?_, ?_, fun hy => ?_, fun _ => rfl⟩
    · simp [setMode, h, settingsSet, objLookup_objSet_self]
    · simp [setMode, h, getMode, settingsGet, settingsSet, objLookup_objSet_self, nullish]
    · exact absurd ((includes_MODES_iff candidate).2 hy) h

/-- C5 at the candidates `3`, `undefined`, `null`, `"highest"` and `"high"`,
starting from stored mode `max`. -/
theorem setMode_coerces_witness :
    getMode (setMode (.num 3) (gameInMode "max" ())).2 = .str "normal" ∧
    getMode (setMode .undefined (gameInMode "max" ())).2 = .str "normal" ∧
    getMode (setMode .null (gameInMode "max" ())).2 = .str "normal" ∧
    getMode (setMode (.str "highest") (gameInMode "max" ())).2 = .str "normal" ∧
    getMode (setMode (.str "high") (gameInMode "max" ())).2 = .str "high" ∧
    ∃ written : JSValue,
      objLookup (setMode (.str "highest") (gameInMode "max" ())).2.settings.storage
          (settingsKey MODULE_ID SETTING_MODE) = some written ∧
      getMode (setMode (.str "highest") (gameInMode "max" ())).2 = written ∧
      ((∃ s ∈ MODES, JSValue.str "highest" = .str s) → written = .str "highest") ∧
      ((¬ ∃ s ∈ MODES, JSValue.str "highest" = .str s) → written = .str "normal") :=
  ⟨rfl, rfl, rfl, rfl, rfl, setMode_coerces (.str "highest") (gameInMode "max" ())⟩

/-- C6: `isTrustedOnly` holds exactly when there is a current user whose role is
the trusted tier; it is false with no user and false for every other role,
lower or higher. -/
theorem isTrustedOnly_exact {σ : Type} (TRUSTED : Int) (g : Game σ) :
    (isTrustedOnly TRUSTED g = true ↔
      ∃ u : Obj, g.user = some u ∧ objGet u "role" = .num TRUSTED) ∧
    (g.user = none → isTrustedOnly TRUSTED g = false) ∧
    (∀ (u : Obj) (r : Int), g.user = some u → objGet u "role" = .num r → r ≠ TRUSTED →
      isTrustedOnly TRUSTED g = false) := by
  refine ⟨?_, fun h => ?_, fun u r hu hr hne => ?_⟩
  · cases hu : g.user with
    | none => simp [isTrustedOnly, hu, strictEqNum]
    | some u =>
      cases hr : objGet u "role" <;> simp [isTrustedOnly, hu, hr, strictEqNum]
  · simp [isTrustedOnly, h, strictEqNum]
  · simp [isTrustedOnly, hu, hr, strictEqNum, hne]

/-- C6 with the trusted tier 2: roles 1, 3 and 4 and the absent user are
refused, role 2 is accepted. -/
theorem isTrustedOnly_exact_witness :
    isTrustedOnly 2 (Game.mk (some [("role", .num 1)]) ⟨[], []⟩ ()) = false ∧
    isTrustedOnly 2 (Game.mk (some [("role", .num 2)]) ⟨[], []⟩ ()) = true ∧
    isTrustedOnly 2 (Game.mk (some [("role", .num 3)]) ⟨[], []⟩ ()) = false ∧
    isTrustedOnly 2 (Game.mk (some [("role", .num 4)]) ⟨[], []⟩ ()) = false ∧
    isTrustedOnly 2 (Game.mk none ⟨[], []⟩ ()) = false :=
  ⟨(isTrustedOnly_exact 2 (Game.mk (some [("role", .num 1)]) ⟨[], []⟩ ())).2.2
      [("role", .num 1)] 1 rfl rfl (by decide),
   rfl,
   (isTrustedOnly_exact 2 (Game.mk (some [("role", .num 3)]) ⟨[], []⟩ ())).2.2
      [("role", .num 3)] 3 rfl rfl (by decide),
   (isTrustedOnly_exact 2 (Game.mk (some [("role", .num 4)]) ⟨[], []⟩ ())).2.2
      [("role", .num 4)] 4 rfl rfl (by decide),
   (isTrustedOnly_exact 2 (Game.mk none ⟨[], []⟩ ())).2.1 rfl⟩

/-! ## Installation -/

theorem installPatchesOnce_game {σ ε : Type} (TRUSTED : Int) (w : World σ ε) :
    (installPatchesOnce TRUSTED w).game = w.game := by
  unfold installPatchesOnce
  split_ifs <;> rfl

theorem installPatchesOnce_twice {σ ε : Type} (TRUSTED : Int) (w : World σ ε) :
    installPatchesOnce TRUSTED (installPatchesOnce TRUSTED w) = installPatchesOnce TRUSTED w := by
  by_cases ht : isTrustedOnly TRUSTED w.game = true
  · by_cases hp : w.patched = true
    · simp [installPatchesOnce, ht, hp]
    · simp [installPatchesOnce, ht, hp]
  · simp [installPatchesOnce, ht]

theorem installPatchesOnce_iterate {σ ε : Type} (TRUSTED : Int) (w : World σ ε) (n : Nat) :
    (installPatchesOnce TRUSTED)^[n + 1] w = installPatchesOnce TRUSTED w := by
  induction n with
  | zero => rfl
  | succ n ih =>
    rw [Function.iterate_succ_apply', ih, installPatchesOnce_twice]

theorem installPatchesOnce_fresh {σ ε : Type} (TRUSTED : Int) (w : World σ ε)
    (hauth : isTrustedOnly TRUSTED w.game = true) (hfresh : w.patched = false) :
    installPatchesOnce TRUSTED w =
      { w with
        patched := true
        protos :=
          { evaluate := w.protos.evaluate.map evaluateWrapper
            evaluateSync := w.protos.evaluateSync.map evaluateWrapper
            roll := w.protos.roll.map rollWrapper } } := by
  simp [installPatchesOnce, hauth, hfresh]

theorem spy_log {σ ε : Type} (f : Method σ ε) (this options : JSValue)
    (g : Game (σ × List Call)) :
    (spy f this options g).2.host.2 = g.host.2 ++ [{ this := this, options := options }] := rfl

theorem spy_log_of_eq {σ ε : Type} (f : Method σ ε) (this options : JSValue)
    (g g1 : Game (σ × List Call)) (r : Except ε JSValue) (h : spy f this options g = (r, g1)) :
    g1.host.2 = g.host.2 ++ [{ this := this, options := options }] := by
  have := spy_log f this options g
  rw [h] at this
  exact this

/-- A wrapped roll over a spied primitive records one call, or two. -/
theorem rollWrapper_spy_log {σ ε : Type} (f : Method σ ε) (this options : JSValue)
    (g : Game (σ × List Call)) :
    (rollWrapper (spy f) this options g).2.host.2 = g.host.2 ++ [callOf this options] ∨
    (rollWrapper (spy f) this options g).2.host.2
      = g.host.2 ++ [callOf this options, callOf this options] := by
  by_cases c1 : (strictEqStr (getMode g) "min" || strictEqStr (getMode g) "max") = true
  · left
    simp only [rollWrapper, c1, if_true]
    exact spy_log _ _ _ _
  by_cases c2 : (!strictEqStr (getMode g) "low" && !strictEqStr (getMode g) "high") = true
  · left
    simp only [rollWrapper, c1, c2, if_true, if_false]
    exact spy_log _ _ _ _
  by_cases c3 : (truthy (optGet (defaultArg options (.obj [])) "minimize") ||
      truthy (optGet (defaultArg options (.obj [])) "maximize")) = true
  · left
    simp only [rollWrapper, c1, c2, c3, if_true, if_false]
    exact spy_log _ _ _ _
  rcases h1 : spy f this (defaultArg options (.obj [])) g with ⟨r1, g1⟩
  have l1 := spy_log_of_eq _ _ _ _ _ _ h1
  cases r1 with
  | error e =>
    left
    simpa [rollWrapper, c1, c2, c3, h1] using l1
  | ok r1 =>
    right
    rcases h2 : spy f this (defaultArg options (.obj [])) g1 with ⟨r2, g2⟩
    have l2 : g2.host.2 = g.host.2 ++ [callOf this options, callOf this options] := by
      rw [spy_log_of_eq _ _ _ _ _ _ h2, l1]
      simp [callOf]
    cases r2 with
    | error e => simpa [rollWrapper, c1, c2, c3, h1, h2] using l2
    | ok r2 =>
      cases n1 : asNumber r1 with
      | none => simpa [rollWrapper, c1, c2, c3, h1, h2, n1] using l2
      | some a =>
        cases n2 : asNumber r2 with
        | none => simpa [rollWrapper, c1, c2, c3, h1, h2, n1, n2] using l2
        | some b => simpa [rollWrapper, c1, c2, c3, h1, h2, n1, n2] using l2

/-- A clean dual roll over a spied primitive whose first call returns records
two calls. -/
theorem rollWrapper_spy_log_dual {σ ε : Type} (f : Method σ ε) (this options : JSValue)
    (g : Game (σ × List Call)) (r1 : JSValue)
    (hmode : getMode g = .str "low" ∨ getMode g = .str "high")
    (hmin : truthy (optGet options "minimize") = false)
    (hmax : truthy (optGet options "maximize") = false)
    (hok : (spy f this (defaultArg options (.obj [])) g).1 = .ok r1) :
    (rollWrapper (spy f) this options g).2.host.2
      = g.host.2 ++ [callOf this options, callOf this options] := by
  rcases h1 : spy f this (defaultArg options (.obj [])) g with ⟨x1, g1⟩
  have l1 := spy_log_of_eq _ _ _ _ _ _ h1
  rw [h1] at hok
  simp only at hok
  subst hok
  rcases h2 : spy f this (defaultArg options (.obj [])) g1 with ⟨x2, g2⟩
  have l2 : g2.host.2 = g.host.2 ++ [callOf this options, callOf this options] := by
    rw [spy_log_of_eq _ _ _ _ _ _ h2, l1]
    simp [callOf]
  have hm : strictEqStr (getMode g) "min" = false ∧ strictEqStr (getMode g) "max" = false ∧
      (strictEqStr (getMode g) "low" = true ∨ strictEqStr (getMode g) "high" = true) := by
    rcases hmode with h | h <;> simp [h, strictEqStr]
  obtain ⟨m1, m2, m3⟩ := hm
  have c2 : (!strictEqStr (getMode g) "low" && !strictEqStr (getMode g) "high") = false := by
    rcases m3 with h | h <;> simp [h]
  cases x2 with
  | error e =>
    simpa [rollWrapper, m1, m2, c2, truthy_optGet_defaultArg, hmin, hmax, h1, h2] using l2
  | ok r2 =>
    cases n1 : asNumber r1 with
    | none =>
      simpa [rollWrapper, m1, m2, c2, truthy_optGet_defaultArg, hmin, hmax, h1, h2, n1] using l2
    | some a =>
      cases n2 : asNumber r2 with
      | none =>
        simpa [rollWrapper, m1, m2, c2, truthy_optGet_defaultArg, hmin, hmax, h1, h2, n1, n2]
          using l2
      | some b =>
        simpa [rollWrapper, m1, m2, c2, truthy_optGet_defaultArg, hmin, hmax, h1, h2, n1, n2]
          using l2

/-- C9: for an authorized actor on an unpatched host, any number `n + 1` of
calls of `installPatchesOnce` leaves the same world as one call, with each
entry point wrapped once; one wrapped roll over a spied primitive records one
call in modes `min`, `normal`, `max`, two in a clean `low`/`high` roll whose
first call returns, and never more than two. -/
theorem installPatchesOnce_idempotent {σ ε : Type} (TRUSTED : Int)
    (w : World (σ × List Call) ε) (f : Method σ ε) (n : Nat)
    (hauth : isTrustedOnly TRUSTED w.game = true) (hfresh : w.patched = false)
    (hroll : w.protos.roll = some (spy f)) :
    (installPatchesOnce TRUSTED)^[n + 1] w = installPatchesOnce TRUSTED w ∧
    ((installPatchesOnce TRUSTED)^[n + 1] w).protos.roll = some (rollWrapper (spy f)) ∧
    ((installPatchesOnce TRUSTED)^[n + 1] w).protos.evaluate
      = w.protos.evaluate.map evaluateWrapper ∧
    ((installPatchesOnce TRUSTED)^[n + 1] w).protos.evaluateSync
      = w.protos.evaluateSync.map evaluateWrapper ∧
    ∀ (this options : JSValue) (g : Game (σ × List Call)),
      ((getMode g = .str "min" ∨ getMode g = .str "normal" ∨ getMode g = .str "max") →
        (rollWrapper (spy f) this options g).2.host.2 = g.host.2 ++ [callOf this options]) ∧
      ((getMode g = .str "low" ∨ getMode g = .str "high") →
        truthy (optGet options "minimize") = false →
        truthy (optGet options "maximize") = false →
        (∃ r1, (spy f this (defaultArg options (.obj [])) g).1 = .ok r1) →
        (rollWrapper (spy f) this options g).2.host.2
          = g.host.2 ++ [callOf this options, callOf this options]) ∧
      (rollWrapper (spy f) this options g).2.host.2.length ≤ g.host.2.length + 2 := by
  rw [installPatchesOnce_iterate, installPatchesOnce_fresh TRUSTED w hauth hfresh]
  refine ⟨rfl, by simp [hroll], rfl, rfl, fun this options g => ⟨fun hm => ?_, ?_, ?_⟩⟩
  · rcases hm with h | h | h <;>
      simpa [rollWrapper, h, strictEqStr] using spy_log f this (defaultArg options (.obj [])) g
  · rintro hm hmin hmax ⟨r1, hok⟩
    exact rollWrapper_spy_log_dual f this options g r1 hm hmin hmax hok
  · rcases rollWrapper_spy_log f this options g with h | h <;> rw [h] <;> simp

/-- C9 on the stub host: two installs equal one, a wrapped roll in mode
`normal` reaches the stub once, and one in mode `low` reaches it twice. -/
theorem installPatchesOnce_idempotent_witness :
    (installPatchesOnce 2)^[1 + 1] stubWorld = installPatchesOnce 2 stubWorld ∧
    (rollWrapper (spy (scripted (ε := Unit))) .null (.obj [])
        (gameInMode "normal" ([JSValue.num 5, JSValue.num 2], []))).2.host.2
      = [] ++ [callOf .null (.obj [])] ∧
    (rollWrapper (spy (scripted (ε := Unit))) .null (.obj [])
        (gameInMode "low" ([JSValue.num 5, JSValue.num 2], []))).2.host.2
      = [] ++ [callOf .null (.obj []), callOf .null (.obj [])] :=
  ⟨(installPatchesOnce_idempotent 2 stubWorld scripted 1 rfl rfl rfl).1,
   ((installPatchesOnce_idempotent 2 stubWorld scripted 1 rfl rfl rfl).2.2.2.2 .null (.obj [])
      (gameInMode "normal" ([JSValue.num 5, JSValue.num 2], []))).1 (Or.inr (Or.inl rfl)),
   ((installPatchesOnce_idempotent 2 stubWorld scripted 1 rfl rfl rfl).2.2.2.2 .null (.obj [])
      (gameInMode "low" ([JSValue.num 5, JSValue.num 2], []))).2.1 (Or.inl rfl) rfl rfl
      ⟨.num 5, rfl⟩⟩

/-! ## Whole-roll evaluation -/

theorem applyMinMaxToEvalOptions_defaultArg {σ : Type} (g : Game σ) (options : JSValue) :
    applyMinMaxToEvalOptions g (defaultArg options (.obj [])) = applyMinMaxToEvalOptions g options := by
  cases options <;> rfl

theorem evaluateWrapper_eq {σ ε : Type} (f : Method σ ε) (this options : JSValue) (g : Game σ) :
    evaluateWrapper f this options g = f this (applyMinMaxToEvalOptions g options) g := by
  simp only [evaluateWrapper, applyMinMaxToEvalOptions_defaultArg]

/-- C10: once installed for an authorized actor, the wrapped `evaluate` and the
wrapped `evaluateSync` are, for every receiver, options and host state at the
time of the call, one call of the original on the same receiver with
`applyMinMaxToEvalOptions` of the caller's options under the mode stored at
that time, result and state unchanged; a spy on the original records exactly
that one call. -/
theorem evaluateWrapper_delegates {σ ε : Type} (TRUSTED : Int)
    (w : World (σ × List Call) ε) (f fs : Method σ ε)
    (hauth : isTrustedOnly TRUSTED w.game = true) (hfresh : w.patched = false)
    (hev : w.protos.evaluate = some (spy f)) (hsync : w.protos.evaluateSync = some (spy fs)) :
    (installPatchesOnce TRUSTED w).protos.evaluate = some (evaluateWrapper (spy f)) ∧
    (installPatchesOnce TRUSTED w).protos.evaluateSync = some (evaluateWrapper (spy fs)) ∧
    ∀ (this options : JSValue) (g : Game (σ × List Call)),
      evaluateWrapper (spy f) this options g
        = spy f this (applyMinMaxToEvalOptions g options) g ∧
      evaluateWrapper (spy fs) this options g
        = spy fs this (applyMinMaxToEvalOptions g options) g ∧
      (evaluateWrapper (spy f) this options g).2.host.2
        = g.host.2 ++ [{ this := this, options := applyMinMaxToEvalOptions g options }] ∧
      (evaluateWrapper (spy fs) this options g).2.host.2
        = g.host.2 ++ [{ this := this, options := applyMinMaxToEvalOptions g options }] := by
  rw [installPatchesOnce_fresh TRUSTED w hauth hfresh]
  refine ⟨by simp [hev], by simp [hsync], fun this options g => ⟨?_, ?_, ?_, ?_⟩⟩
  · exact evaluateWrapper_eq _ _ _ _
  · exact evaluateWrapper_eq _ _ _ _
  · rw [evaluateWrapper_eq]
    exact spy_log _ _ _ _
  · rw [evaluateWrapper_eq]
    exact spy_log _ _ _ _

/-- C10 on the stub host, installed while no mode is stored: a later
`evaluate({})` in mode `min` reaches the original with `{minimize: true,
maximize: false}`. -/
theorem evaluateWrapper_delegates_witness :
    (installPatchesOnce 2 stubWorld).protos.evaluate
      = some (evaluateWrapper (spy (scripted (ε := Unit)))) ∧
    (evaluateWrapper (spy (scripted (ε := Unit))) .null (.obj [])
        (gameInMode "min" ([], []))).2.host.2
      = [] ++ [{ this := .null
                 options := .obj [("minimize", .bool true), ("maximize", .bool false)] }] :=
  ⟨(evaluateWrapper_delegates 2 stubWorld scripted scripted rfl rfl rfl rfl).1,
   ((evaluateWrapper_delegates 2 stubWorld scripted scripted rfl rfl rfl rfl).2.2 .null (.obj [])
      (gameInMode "min" ([], []))).2.2.1⟩

/-! ## Single-call modes -/

theorem strictEqStr_eq_false (v : JSValue) (lit : String) (h : v ≠ .str lit) :
    strictEqStr v lit = false := by
  cases v with
  | str s =>
    have hs : s ≠ lit := fun e => h (by rw [e])
    simp [strictEqStr, hs]
  | _ => rfl

theorem rollWrapper_not_low_high {σ ε : Type} (f : Method σ ε) (this options : JSValue)
    (g : Game σ) (hlow : getMode g ≠ .str "low") (hhigh : getMode g ≠ .str "high") :
    rollWrapper f this options g = f this (defaultArg options (.obj [])) g := by
  have h1 := strictEqStr_eq_false _ _ hlow
  have h2 := strictEqStr_eq_false _ _ hhigh
  simp [rollWrapper, h1, h2]

/-- C11: in every mode other than `low` and `high` (so in `min`, `max` and
`normal`) the wrapped roll is one call of the primitive on the caller's
receiver and options, result and state unchanged; a spy on the primitive
records exactly that one call. -/
theorem rollWrapper_single_call {σ ε : Type} (f : Method σ ε) (this : JSValue) (fields : Obj)
    (g : Game σ) (log : List Call)
    (hlow : getMode g ≠ .str "low") (hhigh : getMode g ≠ .str "high") :
    rollWrapper f this (.obj fields) g = f this (.obj fields) g ∧
    (rollWrapper (spy f) this (.obj fields) (g.withHost (g.host, log))).1
      = (f this (.obj fields) g).1 ∧
    (rollWrapper (spy f) this (.obj fields) (g.withHost (g.host, log))).2.host.2
      = log ++ [{ this := this, options := .obj fields }] := by
  refine ⟨rollWrapper_not_low_high f this _ g hlow hhigh, ?_, ?_⟩
  · rw [rollWrapper_not_low_high (spy f) this _ _ hlow hhigh]
    rfl
  · rw [rollWrapper_not_low_high (spy f) this _ _ hlow hhigh]
    rfl

/-- C11 at modes `min`, `max` and `normal` with the stub that would return 5
and then 2: one call each, with the caller's options. -/
theorem rollWrapper_single_call_witness :
    (rollWrapper (spy (scripted (ε := Unit))) .null (.obj [("a", .num 1)])
        ((gameInMode "min" [JSValue.num 5, JSValue.num 2]).withHost
          ([JSValue.num 5, JSValue.num 2], []))).2.host.2
      = [] ++ [{ this := .null, options := .obj [("a", .num 1)] }] ∧
    (rollWrapper (spy (scripted (ε := Unit))) .null (.obj [("a", .num 1)])
        ((gameInMode "max" [JSValue.num 5, JSValue.num 2]).withHost
          ([JSValue.num 5, JSValue.num 2], []))).2.host.2
      = [] ++ [{ this := .null, options := .obj [("a", .num 1)] }] ∧
    rollWrapper (ε := Unit) scripted .null (.obj [("a", .num 1)])
        (gameInMode "normal" [.num 5, .num 2])
      = scripted .null (.obj [("a", .num 1)]) (gameInMode "normal" [.num 5, .num 2]) :=
  ⟨(rollWrapper_single_call (scripted (ε := Unit)) .null [("a", .num 1)]
      (gameInMode "min" [JSValue.num 5, JSValue.num 2]) []
      (by simp [getMode_gameInMode]) (by simp [getMode_gameInMode])).2.2,
   (rollWrapper_single_call (scripted (ε := Unit)) .null [("a", .num 1)]
      (gameInMode "max" [JSValue.num 5, JSValue.num 2]) []
      (by simp [getMode_gameInMode]) (by simp [getMode_gameInMode])).2.2,
   (rollWrapper_single_call (scripted (ε := Unit)) .null [("a", .num 1)]
      (gameInMode "normal" [JSValue.num 5, JSValue.num 2]) []
      (by simp [getMode_gameInMode]) (by simp [getMode_gameInMode])).1⟩

/-! ## The gate on installation -/

/-- C12: for an actor who is not trusted, `installPatchesOnce` (and the `ready`
hook that calls it) returns the world as it was: the three entry points are the
originals, the guard flag keeps its value, and the game is untouched. -/
theorem installPatchesOnce_unauthorized {σ ε : Type} (TRUSTED : Int) (w : World σ ε)
    (hno : isTrustedOnly TRUSTED w.game = false) :
    installPatchesOnce TRUSTED w = w ∧
    onReady TRUSTED w = w ∧
    (installPatchesOnce TRUSTED w).patched = w.patched ∧
    (installPatchesOnce TRUSTED w).protos.evaluate = w.protos.evaluate ∧
    (installPatchesOnce TRUSTED w).protos.evaluateSync = w.protos.evaluateSync ∧
    (installPatchesOnce TRUSTED w).protos.roll = w.protos.roll := by
  have h : installPatchesOnce TRUSTED w = w := by simp [installPatchesOnce, hno]
  refine ⟨h, by simp [onReady, hno], ?_, ?_, ?_, ?_⟩ <;> rw [h]

/-- C12 on the stub host seen by a user of role 4 while the trusted tier is 2
and by a user of role 1: nothing is installed and the flag stays unset. -/
theorem installPatchesOnce_unauthorized_witness :
    isTrustedOnly 2 { stubWorld with game := { stubWorld.game with
        user := some [("role", .num 4)] } }.game = false ∧
    (installPatchesOnce 2 { stubWorld with game := { stubWorld.game with
        user := some [("role", .num 4)] } }).patched = false ∧
    (installPatchesOnce 2 { stubWorld with game := { stubWorld.game with
        user := some [("role", .num 4)] } }).protos.roll = some (spy scripted) ∧
    (installPatchesOnce 2 { stubWorld with game := { stubWorld.game with
        user := some [("role", .num 1)] } }).protos.roll = some (spy scripted) :=
  ⟨rfl,
   (installPatchesOnce_unauthorized 2 { stubWorld with game := { stubWorld.game with
        user := some [("role", .num 4)] } } rfl).2.2.1,
   (installPatchesOnce_unauthorized 2 { stubWorld with game := { stubWorld.game with
        user := some [("role", .num 4)] } } rfl).2.2.2.2.2,
   (installPatchesOnce_unauthorized 2 { stubWorld with game := { stubWorld.game with
        user := some [("role", .num 1)] } } rfl).2.2.2.2.2⟩

/-! ## Errors of the primitives -/

theorem rollWrapper_first_error {σ ε : Type} (f : Method σ ε) (this options : JSValue)
    (g g1 : Game σ) (e : ε)
    (h1 : f this (defaultArg options (.obj [])) g = (.error e, g1)) :
    rollWrapper f this options g = (.error e, g1) := by
  unfold rollWrapper
  simp only [h1]
  split_ifs <;> rfl

theorem rollWrapper_dual_conditions {σ : Type} (options : JSValue) (g : Game σ)
    (hmode : getMode g = .str "low" ∨ getMode g = .str "high")
    (hmin : truthy (optGet options "minimize") = false)
    (hmax : truthy (optGet options "maximize") = false) :
    (strictEqStr (getMode g) "min" || strictEqStr (getMode g) "max") = false ∧
    (!strictEqStr (getMode g) "low" && !strictEqStr (getMode g) "high") = false ∧
    (truthy (optGet (defaultArg options (.obj [])) "minimize") ||
      truthy (optGet (defaultArg options (.obj [])) "maximize")) = false := by
  rcases hmode with h | h <;> simp [h, strictEqStr, truthy_optGet_defaultArg, hmin, hmax]

theorem rollWrapper_second_error {σ ε : Type} (f : Method σ ε) (this options : JSValue)
    (g g1 g2 : Game σ) (r1 : JSValue) (e : ε)
    (hmode : getMode g = .str "low" ∨ getMode g = .str "high")
    (hmin : truthy (optGet options "minimize") = false)
    (hmax : truthy (optGet options "maximize") = false)
    (h1 : f this (defaultArg options (.obj [])) g = (.ok r1, g1))
    (h2 : f this (defaultArg options (.obj [])) g1 = (.error e, g2)) :
    rollWrapper f this options g = (.error e, g2) := by
  obtain ⟨c1, c2, c3⟩ := rollWrapper_dual_conditions options g hmode hmin hmax
  simp [rollWrapper, c1, c2, c3, h1, h2]

theorem rollWrapper_dual_ok {σ ε : Type} (f : Method σ ε) (this options : JSValue)
    (g g1 g2 : Game σ) (r1 r2 : JSValue)
    (hmode : getMode g = .str "low" ∨ getMode g = .str "high")
    (hmin : truthy (optGet options "minimize") = false)
    (hmax : truthy (optGet options "maximize") = false)
    (h1 : f this (defaultArg options (.obj [])) g = (.ok r1, g1))
    (h2 : f this (defaultArg options (.obj [])) g1 = (.ok r2, g2)) :
    ∃ r, rollWrapper f this options g = (.ok r, g2) := by
  rw [rollWrapper_dual f this options g g1 g2 r1 r2 hmode hmin hmax h1 h2]
  cases asNumber r1 with
  | none => exact ⟨_, rfl⟩
  | some a =>
    cases asNumber r2 with
    | none => exact ⟨_, rfl⟩
    | some b => exact ⟨_, rfl⟩

theorem rollWrapper_requested {σ ε : Type} (f : Method σ ε) (this options : JSValue)
    (g : Game σ)
    (hreq : truthy (optGet options "minimize") = true ∨
      truthy (optGet options "maximize") = true) :
    rollWrapper f this options g = f this (defaultArg options (.obj [])) g := by
  have c3 : (truthy (optGet (defaultArg options (.obj [])) "minimize") ||
      truthy (optGet (defaultArg options (.obj [])) "maximize")) = true := by
    rcases hreq with h | h <;> simp [truthy_optGet_defaultArg, h]
  unfold rollWrapper
  simp only [c3]
  split_ifs <;> rfl

theorem rollWrapper_single_or_clean {σ ε : Type} (f : Method σ ε) (this options : JSValue)
    (g : Game σ) :
    rollWrapper f this options g = f this (defaultArg options (.obj [])) g ∨
    ((getMode g = .str "low" ∨ getMode g = .str "high") ∧
      truthy (optGet options "minimize") = false ∧
      truthy (optGet options "maximize") = false) := by
  by_cases hl : getMode g = .str "low"
  · by_cases hmin : truthy (optGet options "minimize") = true
    · exact Or.inl (rollWrapper_requested f this options g (Or.inl hmin))
    · by_cases hmax : truthy (optGet options "maximize") = true
      · exact Or.inl (rollWrapper_requested f this options g (Or.inr hmax))
      · exact Or.inr ⟨Or.inl hl, by simpa using hmin, by simpa using hmax⟩
  · by_cases hh : getMode g = .str "high"
    · by_cases hmin : truthy (optGet options "minimize") = true
      · exact Or.inl (rollWrapper_requested f this options g (Or.inl hmin))
      · by_cases hmax : truthy (optGet options "maximize") = true
        · exact Or.inl (rollWrapper_requested f this options g (Or.inr hmax))
        · exact Or.inr ⟨Or.inr hh, by simpa using hmin, by simpa using hmax⟩
    · exact Or.inl (rollWrapper_not_low_high f this options g hl hh)

/-- C13 as amended: the wrapped `evaluate`/`evaluateSync` is the
original called once with the transformed options, so it fails exactly when
that call fails and with its error; an error of the first underlying roll is the
wrapped roll's error; every error of the wrapped roll is the error of its first
or of its second underlying call, never one of its own; in the single-call
cases the wrapped roll is the original call, and in a clean `low`/`high` roll
it fails exactly when the first or the second call fails. -/
theorem wrappers_propagate_errors {σ ε : Type} (f : Method σ ε) (this options : JSValue)
    (g : Game σ) :
    evaluateWrapper f this options g = f this (applyMinMaxToEvalOptions g options) g ∧
    (∀ (e : ε) (g1 : Game σ), f this (defaultArg options (.obj [])) g = (.error e, g1) →
      rollWrapper f this options g = (.error e, g1)) ∧
    (∀ e : ε, (rollWrapper f this options g).1 = .error e →
      (f this (defaultArg options (.obj [])) g).1 = .error e ∨
      ((∃ r1, (f this (defaultArg options (.obj [])) g).1 = .ok r1) ∧
        (f this (defaultArg options (.obj []))
          (f this (defaultArg options (.obj [])) g).2).1 = .error e)) ∧
    (getMode g ≠ .str "low" → getMode g ≠ .str "high" →
      rollWrapper f this options g = f this (defaultArg options (.obj [])) g) ∧
    (truthy (optGet options "minimize") = true ∨ truthy (optGet options "maximize") = true →
      rollWrapper f this options g = f this (defaultArg options (.obj [])) g) ∧
    ((getMode g = .str "low" ∨ getMode g = .str "high") →
      truthy (optGet options "minimize") = false →
      truthy (optGet options "maximize") = false →
      ((∃ e : ε, (rollWrapper f this options g).1 = .error e) ↔
        ((∃ e : ε, (f this (defaultArg options (.obj [])) g).1 = .error e) ∨
          ((∃ r1, (f this (defaultArg options (.obj [])) g).1 = .ok r1) ∧
            ∃ e : ε, (f this (defaultArg options (.obj []))
              (f this (defaultArg options (.obj [])) g).2).1 = .error e)))) := by
  have origin : ∀ e : ε, (rollWrapper f this options g).1 = .error e →
      (f this (defaultArg options (.obj [])) g).1 = .error e ∨
      ((∃ r1, (f this (defaultArg options (.obj [])) g).1 = .ok r1) ∧
        (f this (defaultArg options (.obj []))
          (f this (defaultArg options (.obj [])) g).2).1 = .error e) := by
    intro e he
    rcases rollWrapper_single_or_clean f this options g with hs | ⟨hmode, hmin, hmax⟩
    · rw [hs] at he
      exact Or.inl he
    · rcases h1 : f this (defaultArg options (.obj [])) g with ⟨x1, g1⟩
      cases x1 with
      | error e1 =>
        rw [rollWrapper_first_error f this options g g1 e1 h1] at he
        exact Or.inl he
      | ok r1 =>
        rcases h2 : f this (defaultArg options (.obj [])) g1 with ⟨x2, g2⟩
        cases x2 with
        | error e2 =>
          rw [rollWrapper_second_error f this options g g1 g2 r1 e2 hmode hmin hmax h1 h2] at he
          exact Or.inr ⟨⟨r1, rfl⟩, by simpa [h2] using he⟩
        | ok r2 =>
          obtain ⟨r, hr⟩ := rollWrapper_dual_ok f this options g g1 g2 r1 r2 hmode hmin hmax h1 h2
          rw [hr] at he
          cases he
  refine ⟨evaluateWrapper_eq f this options g,
    fun e g1 h1 => rollWrapper_first_error f this options g g1 e h1,
    origin,
    fun hl hh => rollWrapper_not_low_high f this options g hl hh,
    fun hreq => rollWrapper_requested f this options g hreq,
    fun hmode hmin hmax => ⟨?_, ?_⟩⟩
  · rintro ⟨e, he⟩
    rcases origin e he with h | ⟨hr, h⟩
    · exact Or.inl ⟨e, h⟩
    · exact Or.inr ⟨hr, e, h⟩
  · rintro (⟨e, h⟩ | ⟨⟨r1, hr1⟩, e, h⟩)
    · refine ⟨e, ?_⟩
      rw [rollWrapper_first_error f this options g _ e (Prod.ext h rfl)]
    · refine ⟨e, ?_⟩
      rw [rollWrapper_second_error f this options g _ _ r1 e hmode hmin hmax
        (Prod.ext hr1 rfl) (Prod.ext h rfl)]

/-- C13 as stated fails: in mode `low`, over a primitive that returns 5 and
then throws, the original called once returns 5, yet the wrapped roll fails
with the second call's error. -/
theorem rollWrapper_fails_where_original_returns :
    (scriptedOutcomes .null (.obj [])
      (gameInMode "low" [Except.ok (JSValue.num 5), Except.error "second roll failed"])).1
      = .ok (.num 5) ∧
    (rollWrapper scriptedOutcomes .null (.obj [])
      (gameInMode "low" [Except.ok (JSValue.num 5), Except.error "second roll failed"])).1
      = .error "second roll failed" ∧
    ¬ ((∃ e : String, (rollWrapper scriptedOutcomes .null (.obj [])
          (gameInMode "low" [Except.ok (JSValue.num 5), Except.error "second roll failed"])).1
          = .error e) ↔
       (∃ e : String, (scriptedOutcomes .null (.obj [])
          (gameInMode "low" [Except.ok (JSValue.num 5), Except.error "second roll failed"])).1
          = .error e)) := by
  refine ⟨rfl, rfl, fun h => ?_⟩
  obtain ⟨e, he⟩ := h.1 ⟨_, rfl⟩
  cases he

/-- C13 at the same primitive: the error the wrapped roll fails with is the
error of its second underlying call. -/
theorem wrappers_propagate_errors_witness :
    (scriptedOutcomes .null (defaultArg (.obj []) (.obj []))
      (gameInMode "low" [Except.ok (JSValue.num 5), Except.error "second roll failed"])).1
      = .error "second roll failed" ∨
    ((∃ r1, (scriptedOutcomes .null (defaultArg (.obj []) (.obj []))
      (gameInMode "low" [Except.ok (JSValue.num 5), Except.error "second roll failed"])).1
      = .ok r1) ∧
     (scriptedOutcomes .null (defaultArg (.obj []) (.obj []))
      (scriptedOutcomes .null (defaultArg (.obj []) (.obj []))
        (gameInMode "low"
          [Except.ok (JSValue.num 5), Except.error "second roll failed"])).2).1
      = .error "second roll failed") :=
  (wrappers_propagate_errors scriptedOutcomes .null (.obj [])
    (gameInMode "low" [Except.ok (JSValue.num 5), Except.error "second roll failed"])).2.2.1
    "second roll failed" rfl

/-! ## Return shapes of the wrappers -/

theorem awaited_evaluateWrapperShaped {σ ε : Type} (f : ShapedMethod σ ε) :
    awaited (evaluateWrapperShaped f) = evaluateWrapper (awaited f) := rfl

theorem awaited_rollWrapperAsync {σ ε : Type} (f : ShapedMethod σ ε) :
    awaited (rollWrapperAsync f) = rollWrapper (awaited f) := rfl

/-- C14 as amended: the wrapped `evaluate`/`evaluateSync` returns
exactly what the original returns for the transformed options, in the same
shape; the wrapped per-die roll answers with a promise in every mode, whatever
the original does; in mode `normal` that promise settles with the original's
outcome and leaves the original's state, and the wrapped roll equals the
original whenever the original itself answers with a promise. -/
theorem wrappers_return_shape {σ ε : Type} (f : ShapedMethod σ ε) (this options : JSValue)
    (g : Game σ) :
    evaluateWrapperShaped f this options g = f this (applyMinMaxToEvalOptions g options) g ∧
    (∃ r, (rollWrapperAsync f this options g).1 = .promised r) ∧
    (getMode g = .str "normal" →
      rollWrapperAsync f this options g
        = (.promised (f this (defaultArg options (.obj [])) g).1.settle,
            (f this (defaultArg options (.obj [])) g).2)) ∧
    (getMode g = .str "normal" →
      ∀ r, (f this (defaultArg options (.obj [])) g).1 = .promised r →
        rollWrapperAsync f this options g = f this (defaultArg options (.obj [])) g) := by
  have hn : getMode g = .str "normal" →
      rollWrapperAsync f this options g
        = (.promised (f this (defaultArg options (.obj [])) g).1.settle,
            (f this (defaultArg options (.obj [])) g).2) := by
    intro h
    have e := rollWrapper_not_low_high (awaited f) this options g
      (by rw [h]; simp) (by rw [h]; simp)
    simp only [rollWrapperAsync, e]
    rfl
  refine ⟨?_, ⟨_, rfl⟩, hn, fun h r hr => ?_⟩
  · simp only [evaluateWrapperShaped, applyMinMaxToEvalOptions_defaultArg]
  · rw [hn h]
    refine Prod.ext ?_ rfl
    simp [hr, Completion.settle]

/-- C14 as stated fails: in mode `normal`, over a primitive that returns 5 as
a plain value, the wrapped roll answers with a promise of 5, so it is not the
original. -/
theorem rollWrapperAsync_changes_shape :
    (scriptedPlain (ε := Unit) .null (.obj []) (gameInMode "normal" [.num 5])).1
      = .returned (.num 5) ∧
    (rollWrapperAsync (ε := Unit) scriptedPlain .null (.obj [])
      (gameInMode "normal" [.num 5])).1 = .promised (.ok (.num 5)) ∧
    rollWrapperAsync (ε := Unit) scriptedPlain .null (.obj []) (gameInMode "normal" [.num 5])
      ≠ scriptedPlain .null (.obj []) (gameInMode "normal" [.num 5]) := by
  refine ⟨rfl, rfl, fun h => ?_⟩
  have h1 := congrArg Prod.fst h
  cases h1

/-- C14 at the plain stub in mode `normal`: the wrapped roll is a promise
settling with the stub's outcome. -/
theorem wrappers_return_shape_witness :
    getMode (gameInMode "normal" [JSValue.num 5]) = .str "normal" ∧
    rollWrapperAsync (ε := Unit) scriptedPlain .null (.obj []) (gameInMode "normal" [.num 5])
      = (.promised (.ok (.num 5)), gameInMode "normal" []) :=
  ⟨rfl, (wrappers_return_shape (ε := Unit) scriptedPlain .null (.obj [])
    (gameInMode "normal" [.num 5])).2.2.1 rfl⟩

/-! ## Fallbacks of the dual roll -/

/-- C15 as amended: in the clean dual roll, when the first outcome is of type
number (`typeof` is `"number"`, `NaN` included) and the second is not, the
wrapped roll returns the first outcome as it is, in mode `low` and in mode
`high`; and when the first is not of type number and the second is, it returns
the second: with exactly one outcome of type number the result is that
outcome. -/
theorem rollWrapper_second_not_number {σ ε : Type} (f : Method σ ε) (this options : JSValue)
    (g g1 g2 : Game σ) (r1 r2 : JSValue)
    (hmode : getMode g = .str "low" ∨ getMode g = .str "high")
    (hmin : truthy (optGet options "minimize") = false)
    (hmax : truthy (optGet options "maximize") = false)
    (h1 : f this (defaultArg options (.obj [])) g = (.ok r1, g1))
    (h2 : f this (defaultArg options (.obj [])) g1 = (.ok r2, g2)) :
    (∀ n : JSNumber, asNumber r1 = some n → asNumber r2 = none →
      rollWrapper f this options g = (.ok r1, g2)) ∧
    (∀ n : JSNumber, asNumber r1 = none → asNumber r2 = some n →
      rollWrapper f this options g = (.ok r2, g2)) := by
  rw [rollWrapper_dual f this options g g1 g2 r1 r2 hmode hmin hmax h1 h2]
  refine ⟨fun n ha hb => ?_, fun n ha hb => ?_⟩
  · rw [ha, hb]
  · rw [ha]

/-- C15 as stated fails: over the stub that returns 4 and then `NaN`, 4 is the
one valid number of the two outcomes, yet the wrapped roll gives `NaN`, in mode
`low` and in mode `high`. -/
theorem rollWrapper_number_then_nan :
    rollWrapper (ε := Unit) scripted .undefined (.obj []) (gameInMode "low" [.num 4, .nan])
      = (.ok .nan, gameInMode "low" []) ∧
    rollWrapper (ε := Unit) scripted .undefined (.obj []) (gameInMode "high" [.num 4, .nan])
      = (.ok .nan, gameInMode "high" []) ∧
    (rollWrapper (ε := Unit) scripted .undefined (.obj [])
      (gameInMode "low" [.num 4, .nan])).1 ≠ .ok (.num 4) ∧
    (rollWrapper (ε := Unit) scripted .undefined (.obj [])
      (gameInMode "high" [.num 4, .nan])).1 ≠ .ok (.num 4) := by
  refine ⟨rfl, rfl, fun h => ?_, fun h => ?_⟩
  · have e : (rollWrapper (ε := Unit) scripted .undefined (.obj [])
        (gameInMode "low" [.num 4, .nan])).1 = .ok .nan := rfl
    rw [e] at h
    cases h
  · have e : (rollWrapper (ε := Unit) scripted .undefined (.obj [])
        (gameInMode "high" [.num 4, .nan])).1 = .ok .nan := rfl
    rw [e] at h
    cases h

/-- C15 at the stub that returns 4 and then `undefined`: the wrapped roll gives
4 in mode `low` and in mode `high`. -/
theorem rollWrapper_second_not_number_witness :
    rollWrapper (ε := Unit) scripted .undefined (.obj [])
        (gameInMode "low" [.num 4, .undefined])
      = (.ok (.num 4), gameInMode "low" []) ∧
    rollWrapper (ε := Unit) scripted .undefined (.obj [])
        (gameInMode "high" [.num 4, .undefined])
      = (.ok (.num 4), gameInMode "high" []) :=
  ⟨(rollWrapper_second_not_number scripted .undefined (.obj [])
      (gameInMode "low" [.num 4, .undefined]) (gameInMode "low" [.undefined])
      (gameInMode "low" []) (.num 4) .undefined (Or.inl rfl) rfl rfl rfl rfl).1
      (.int 4) rfl rfl,
   (rollWrapper_second_not_number scripted .undefined (.obj [])
      (gameInMode "high" [.num 4, .undefined]) (gameInMode "high" [.undefined])
      (gameInMode "high" []) (.num 4) .undefined (Or.inr rfl) rfl rfl rfl rfl).1
      (.int 4) rfl rfl⟩

/-! ## Missing entry points -/

/-- Where `foundry` is declared: for an authorized actor on an unpatched host,
whichever of the three entry points are present, `installPatchesOnce` returns a
world in which each present entry point is the wrapper around its original and
each absent one is still absent; the wrap of one entry point does not depend on
the presence of another. -/
theorem installPatchesOnce_wraps_present {σ ε : Type} (TRUSTED : Int) (w : World σ ε)
    (hauth : isTrustedOnly TRUSTED w.game = true) (hfresh : w.patched = false) :
    (∀ f, w.protos.evaluate = some f →
      (installPatchesOnce TRUSTED w).protos.evaluate = some (evaluateWrapper f)) ∧
    (∀ f, w.protos.evaluateSync = some f →
      (installPatchesOnce TRUSTED w).protos.evaluateSync = some (evaluateWrapper f)) ∧
    (∀ f, w.protos.roll = some f →
      (installPatchesOnce TRUSTED w).protos.roll = some (rollWrapper f)) ∧
    (w.protos.evaluate = none → (installPatchesOnce TRUSTED w).protos.evaluate = none) ∧
    (w.protos.evaluateSync = none →
      (installPatchesOnce TRUSTED w).protos.evaluateSync = none) ∧
    (w.protos.roll = none → (installPatchesOnce TRUSTED w).protos.roll = none) ∧
    (installPatchesOnce TRUSTED w).patched = true ∧
    (installPatchesOnce TRUSTED w).game = w.game := by
  rw [installPatchesOnce_fresh TRUSTED w hauth hfresh]
  refine ⟨fun f h => ?_, fun f h => ?_, fun f h => ?_, fun h => ?_, fun h => ?_, fun h => ?_,
    rfl, rfl⟩ <;> simp [h]

/-- On the stub host that exposes the per-die roll only, the roll is wrapped and
`evaluate` and `evaluateSync` stay absent. -/
theorem installPatchesOnce_wraps_present_witness :
    (installPatchesOnce 2 rollOnlyWorld).protos.roll = some (rollWrapper (spy scripted)) ∧
    (installPatchesOnce 2 rollOnlyWorld).protos.evaluate = none ∧
    (installPatchesOnce 2 rollOnlyWorld).protos.evaluateSync = none :=
  ⟨(installPatchesOnce_wraps_present 2 rollOnlyWorld rfl rfl).2.2.1 (spy scripted) rfl,
   (installPatchesOnce_wraps_present 2 rollOnlyWorld rfl rfl).2.2.2.1 rfl,
   (installPatchesOnce_wraps_present 2 rollOnlyWorld rfl rfl).2.2.2.2.1 rfl⟩

/-- On a host that declares `foundry`, `installPatchesOnceIn` ends without an
error and does what `installPatchesOnce` does on the world behind it. -/
theorem installPatchesOnceIn_declared {σ ε : Type} (TRUSTED : Int) (r : Realm σ ε)
    (protos : Prototypes σ ε) (hdecl : r.foundry = some protos) :
    (installPatchesOnceIn TRUSTED r).1 = .ok () ∧
    (installPatchesOnceIn TRUSTED r).2.patched
      = (installPatchesOnce TRUSTED
          { patched := r.patched, protos := protos, game := r.game }).patched ∧
    (installPatchesOnceIn TRUSTED r).2.foundry
      = some (installPatchesOnce TRUSTED
          { patched := r.patched, protos := protos, game := r.game }).protos ∧
    (installPatchesOnceIn TRUSTED r).2.game = r.game := by
  by_cases ht : isTrustedOnly TRUSTED r.game = true
  · by_cases hp : r.patched = true
    · simp [installPatchesOnceIn, installPatchesOnce, ht, hp, hdecl]
    · simp [installPatchesOnceIn, installPatchesOnce, ht, hp, hdecl]
  · simp [installPatchesOnceIn, installPatchesOnce, ht, hdecl]

/-- On a host that does not declare `foundry`, for an authorized actor with no
patch installed, `installPatchesOnceIn` throws the `ReferenceError` and leaves
the guard flag set; nothing else changes. -/
theorem installPatchesOnceIn_undeclared {σ ε : Type} (TRUSTED : Int) (r : Realm σ ε)
    (hauth : isTrustedOnly TRUSTED r.game = true) (hfresh : r.patched = false)
    (hundecl : r.foundry = none) :
    installPatchesOnceIn TRUSTED r
      = (.error (.referenceError "foundry"), { r with patched := true }) := by
  simp [installPatchesOnceIn, hauth, hfresh, hundecl]

/-- C16 fails on the code: the host that declares no `foundry` exposes none of
the three entry points, and there `installPatchesOnce` for an authorized actor
does not complete: it sets the guard flag and throws a `ReferenceError`, and
the next call returns at the flag. -/
theorem installPatchesOnceIn_undeclared_foundry :
    isTrustedOnly 2 bareRealm.game = true ∧
    (installPatchesOnceIn 2 bareRealm).1 = .error (.referenceError "foundry") ∧
    (installPatchesOnceIn 2 bareRealm).2.patched = true ∧
    (installPatchesOnceIn 2 bareRealm).2.foundry = none ∧
    (installPatchesOnceIn 2 (installPatchesOnceIn 2 bareRealm).2).1 = .ok () :=
  ⟨rfl, rfl, rfl, rfl, rfl⟩

/-! ## Two calls, one after the other -/

/-- C17: in the clean dual roll, when neither call fails, a spy on the primitive
records exactly two calls, both with the caller's receiver and options, and the
second call runs on the state the first one left: the wrapped roll ends in the
state of the second call made after the first.  The outcomes may be any
values. -/
theorem rollWrapper_two_sequential_calls {σ ε : Type} (f : Method σ ε) (this : JSValue)
    (fields : Obj) (g : Game σ) (log : List Call) (r1 r2 : JSValue)
    (hmode : getMode g = .str "low" ∨ getMode g = .str "high")
    (hmin : truthy (optGet (.obj fields) "minimize") = false)
    (hmax : truthy (optGet (.obj fields) "maximize") = false)
    (h1 : (f this (.obj fields) g).1 = .ok r1)
    (h2 : (f this (.obj fields) (f this (.obj fields) g).2).1 = .ok r2) :
    (rollWrapper (spy f) this (.obj fields) (g.withHost (g.host, log))).2.host.2
      = log ++ [{ this := this, options := .obj fields },
                { this := this, options := .obj fields }] ∧
    (rollWrapper f this (.obj fields) g).2
      = (f this (.obj fields) (f this (.obj fields) g).2).2 := by
  constructor
  · exact rollWrapper_spy_log_dual f this (.obj fields) (g.withHost (g.host, log)) r1
      hmode hmin hmax h1
  · obtain ⟨r, hr⟩ := rollWrapper_dual_ok f this (.obj fields) g _ _ r1 r2 hmode hmin hmax
      (Prod.ext h1 rfl) (Prod.ext h2 rfl)
    rw [hr]
    rfl

/-- C17 at the stub that returns `undefined` and then `"x"` in mode `high`: two
calls with the caller's receiver and options. -/
theorem rollWrapper_two_sequential_calls_witness :
    (rollWrapper (spy (scripted (ε := Unit))) (.num 7) (.obj [("a", .num 1)])
        ((gameInMode "high" [JSValue.undefined, JSValue.str "x"]).withHost
          ([JSValue.undefined, JSValue.str "x"], []))).2.host.2
      = [] ++ [{ this := .num 7, options := .obj [("a", .num 1)] },
               { this := .num 7, options := .obj [("a", .num 1)] }] :=
  (rollWrapper_two_sequential_calls (scripted (ε := Unit)) (.num 7) [("a", .num 1)]
    (gameInMode "high" [JSValue.undefined, JSValue.str "x"]) [] .undefined (.str "x")
    (Or.inr rfl) rfl rfl rfl rfl).1

/-! ## The mode snapshot -/

/-- C18: the choice between `min` and `max` is made with the mode read when the
roll begins.  Over a primitive that calls `setMode` with any candidate `c`
before each of its answers, a clean roll begun in mode `low` returns the
minimum of the two outcomes and one begun in mode `high` the maximum, whatever
`c` is. -/
theorem rollWrapper_mode_snapshot {σ ε : Type} (f : Method σ ε) (c this options : JSValue)
    (g g1 g2 : Game σ) (a b : Int)
    (hmin : truthy (optGet options "minimize") = false)
    (hmax : truthy (optGet options "maximize") = false)
    (h1 : f this (defaultArg options (.obj [])) g = (.ok (.num a), g1))
    (h2 : f this (defaultArg options (.obj [])) (setMode c g1).2 = (.ok (.num b), g2)) :
    (getMode g = .str "low" →
      rollWrapper (thenSetMode f c) this options g
        = (.ok (.num (min a b)), (setMode c g2).2)) ∧
    (getMode g = .str "high" →
      rollWrapper (thenSetMode f c) this options g
        = (.ok (.num (max a b)), (setMode c g2).2)) := by
  have e1 : thenSetMode f c this (defaultArg options (.obj [])) g
      = (.ok (.num a), (setMode c g1).2) := by
    simp only [thenSetMode, h1]
  have e2 : thenSetMode f c this (defaultArg options (.obj [])) (setMode c g1).2
      = (.ok (.num b), (setMode c g2).2) := by
    simp only [thenSetMode, h2]
  refine ⟨fun h => ?_, fun h => ?_⟩
  · rw [rollWrapper_dual (thenSetMode f c) this options g _ _ _ _ (Or.inl h) hmin hmax e1 e2]
    simp [asNumber, mathMin, mathMax, JSNumber.toValue, h, strictEqStr]
  · rw [rollWrapper_dual (thenSetMode f c) this options g _ _ _ _ (Or.inr h) hmin hmax e1 e2]
    simp [asNumber, mathMin, mathMax, JSNumber.toValue, h, strictEqStr]

/-- C18 at a roll begun in mode `low` whose primitive switches the mode to
`high` during each sub-roll and returns 5 and then 2: the result is still the
minimum 2, and the mode left behind is `high`. -/
theorem rollWrapper_mode_snapshot_witness :
    rollWrapper (ε := Unit) (thenSetMode scripted (.str "high")) .null (.obj [])
        (gameInMode "low" [.num 5, .num 2])
      = (.ok (.num 2), gameInMode "high" []) ∧
    getMode (setMode (.str "high") (gameInMode "low" [JSValue.num 2])).2 = .str "high" :=
  ⟨(rollWrapper_mode_snapshot (ε := Unit) scripted (.str "high") .null (.obj [])
      (gameInMode "low" [.num 5, .num 2]) (gameInMode "low" [.num 2])
      (gameInMode "high" []) 5 2 rfl rfl rfl rfl).1 rfl,
   rfl⟩

/-! ## The mode is always one of the five -/

theorem getMode_setMode_mem {σ : Type} (c : JSValue) (g : Game σ) :
    ∃ s ∈ MODES, getMode (setMode c g).2 = .str s := by
  by_cases h : includes MODES c = true
  · obtain ⟨s, hs, rfl⟩ := (includes_MODES_iff c).1 h
    refine ⟨s, hs, ?_⟩
    simp [setMode, h, getMode, settingsGet, settingsSet, objLookup_objSet_self, nullish]
  · refine ⟨"normal", by decide, ?_⟩
    simp [setMode, h, getMode, settingsGet, settingsSet, objLookup_objSet_self, nullish]

theorem getMode_setModes_mem {σ : Type} (cs : List JSValue) (g : Game σ)
    (hg : ∃ s ∈ MODES, getMode g = .str s) :
    ∃ s ∈ MODES, getMode (setModes cs g) = .str s := by
  induction cs generalizing g with
  | nil => exact hg
  | cons c rest ih => exact ih (setMode c g).2 (getMode_setMode_mem c g)

theorem getMode_onInit {σ : Type} (g : Game σ)
    (hfresh : objLookup g.settings.storage (settingsKey MODULE_ID SETTING_MODE) = none) :
    getMode (onInit g) = .str "normal" := by
  simp [getMode, onInit, settingsGet, settingsRegister, hfresh, objGet, objLookup_objSet_self,
    nullish]

/-- C19: from a host with no persisted mode, after the `init` hook has
registered the default, `getMode` returns `"normal"`, and after any run of
`setMode` calls with arbitrary candidates it returns one of the five modes; the
same holds on a host where nothing is registered either. -/
theorem getMode_always_enumerated {σ : Type} (g0 : Game σ) (candidates : List JSValue)
    (hfresh : objLookup g0.settings.storage (settingsKey MODULE_ID SETTING_MODE) = none) :
    getMode (onInit g0) = .str "normal" ∧
    (∃ s ∈ MODES, getMode (setModes candidates (onInit g0)) = .str s) ∧
    (objLookup g0.settings.defaults (settingsKey MODULE_ID SETTING_MODE) = none →
      getMode g0 = .str "normal" ∧
      ∃ s ∈ MODES, getMode (setModes candidates g0) = .str s) := by
  have hn := getMode_onInit g0 hfresh
  have hin : "normal" ∈ MODES := by decide
  refine ⟨hn, getMode_setModes_mem candidates _ ⟨"normal", hin, hn⟩, fun hd => ?_⟩
  have h0 : getMode g0 = .str "normal" := by
    simp [getMode, settingsGet, hfresh, objGet, hd, nullish]
  exact ⟨h0, getMode_setModes_mem candidates _ ⟨"normal", hin, h0⟩⟩

/-- C19 on an empty host: `normal` at the start, and after the candidates
`"max"`, `3`, `undefined`, `"low"`, `"lowest"` in turn the modes read `max`,
`normal`, `normal`, `low`, `normal`. -/
theorem getMode_always_enumerated_witness :
    getMode (onInit (Game.mk none ⟨[], []⟩ ())) = .str "normal" ∧
    getMode (setModes [.str "max"] (onInit (Game.mk none ⟨[], []⟩ ()))) = .str "max" ∧
    getMode (setModes [.str "max", .num 3] (onInit (Game.mk none ⟨[], []⟩ ()))) = .str "normal" ∧
    getMode (setModes [.str "max", .num 3, .undefined, .str "low"]
      (onInit (Game.mk none ⟨[], []⟩ ()))) = .str "low" ∧
    (∃ s ∈ MODES, getMode (setModes [.str "max", .num 3, .undefined, .str "low", .str "lowest"]
      (onInit (Game.mk none ⟨[], []⟩ ()))) = .str s) :=
  ⟨(getMode_always_enumerated (Game.mk none ⟨[], []⟩ ()) [] rfl).1, rfl, rfl, rfl,
   (getMode_always_enumerated (Game.mk none ⟨[], []⟩ ())
      [.str "max", .num 3, .undefined, .str "low", .str "lowest"] rfl).2.1⟩

end TrustedRollModifier
